import Mathlib

/-!
Shallow embedding of the numismatics service core (src/numismatics) and
verification of the frozen claims about it.

Tables are lists of rows; a SQLAlchemy statement is embedded as the list of
rows it returns, a filtration (a function narrowing a statement) as a Bool
predicate that is conjoined onto the soft-delete predicate, timestamps as
Nat, and each raised application error as a constructor of ApiError.
The code's UndefinedError is the spec's NotFound, MissingObjectsError the
spec's MissingReferences, UnauthorizedError the spec's Unauthorized.
-/

/-- Row of the account table (models.Account). -/
structure Account where
  id : Nat
  deleted_at : Option Nat
  name : String
  is_admin : Bool
deriving DecidableEq

/-- Row of one of the four catalog tables (models.TypeMoney, Currency, Mint,
IssuingState); each has only the Base columns id and deleted_at. -/
structure CatalogRow where
  id : Nat
  deleted_at : Option Nat
deriving DecidableEq

/-- Row of the money table (models.Money). -/
structure Money where
  id : Nat
  deleted_at : Option Nat
  description : String
  nominal_price : Nat
  release_year : String
  serial_number : String
  user : Nat
  type_money : Nat
  currency : Nat
  mint : Nat
  issuing_state : Nat
deriving DecidableEq

/-- types.StatusTransfer. -/
inductive StatusTransfer where
  | initial
  | approved
  | declined
deriving DecidableEq

/-- Row of the transfer table (models.Transfer). -/
structure Transfer where
  id : Nat
  deleted_at : Option Nat
  source : Nat
  destination : Nat
  creater : Nat
  created_at : Nat
  closed_at : Option Nat
  comment : String
  money : Nat
  status : StatusTransfer
deriving DecidableEq

/-- The typed application errors of errors.py.  MissingObjectsError carries
its positional arguments rendered as strings (a key list in
MoneyResolver.validate, a money id in TransferResolver.approve, nothing in
TransferResolver.validate_transfer). -/
inductive ApiError where
  | undefinedError
  | unauthorizedError
  | missingObjectsError (keys : List String)
  | ownerMismatchError
  | uniqueError
  | selfTransferError
deriving DecidableEq

/-- The whole relational state: one list of rows per table. -/
structure DB where
  accounts : List Account
  type_moneys : List CatalogRow
  currencys : List CatalogRow
  mints : List CatalogRow
  issuing_states : List CatalogRow
  moneys : List Money
  transfers : List Transfer
deriving DecidableEq

/-- The columns every model inherits from models.Base (id primary key,
nullable deleted_at), as a typeclass so the generic engine of sql.py and
CrudResolver can be stated once, like the Python generics. -/
class Row (α : Type) where
  rid : α → Nat
  deletedAt : α → Option Nat
  setDeletedAt : α → Option Nat → α
  rid_setDeletedAt : ∀ r v, rid (setDeletedAt r v) = rid r
  deletedAt_setDeletedAt : ∀ r v, deletedAt (setDeletedAt r v) = v

instance : Row Account where
  rid := Account.id
  deletedAt := Account.deleted_at
  setDeletedAt := fun r v => { r with deleted_at := v }
  rid_setDeletedAt := fun _ _ => rfl
  deletedAt_setDeletedAt := fun _ _ => rfl

instance : Row CatalogRow where
  rid := CatalogRow.id
  deletedAt := CatalogRow.deleted_at
  setDeletedAt := fun r v => { r with deleted_at := v }
  rid_setDeletedAt := fun _ _ => rfl
  deletedAt_setDeletedAt := fun _ _ => rfl

instance : Row Money where
  rid := Money.id
  deletedAt := Money.deleted_at
  setDeletedAt := fun r v => { r with deleted_at := v }
  rid_setDeletedAt := fun _ _ => rfl
  deletedAt_setDeletedAt := fun _ _ => rfl

instance : Row Transfer where
  rid := Transfer.id
  deletedAt := Transfer.deleted_at
  setDeletedAt := fun r v => { r with deleted_at := v }
  rid_setDeletedAt := fun _ _ => rfl
  deletedAt_setDeletedAt := fun _ _ => rfl

/-- The SQLAlchemy with_for_update call used as a filtration in api.py:
it acquires a row lock and narrows nothing. -/
def with_for_update {α : Type} : α → Bool := fun _ => true

namespace sql

/-- sql.get_filter_by_existing: the soft-delete predicate deleted_at == None. -/
def get_filter_by_existing {α : Type} [Row α] (r : α) : Bool :=
  decide (Row.deletedAt r = none)

/-- sql.select_and_filter: base select narrowed by the soft-delete predicate
and then by the optional caller-supplied filtration. -/
def select_and_filter {α : Type} [Row α] (rows : List α) (filtration : Option (α → Bool)) : List α :=
  let stmt := rows.filter get_filter_by_existing
  match filtration with
  | none => stmt
  | some f => stmt.filter f

/-- Insertion step of the id-ascending ordering of sql.get_all_instance. -/
def insertById {α : Type} [Row α] (t : α) : List α → List α
  | [] => [t]
  | x :: xs => if Row.rid t ≤ Row.rid x then t :: x :: xs else x :: insertById t xs

/-- The order_by(model.id) of sql.get_all_instance, as an insertion sort. -/
def sortById {α : Type} [Row α] : List α → List α
  | [] => []
  | x :: xs => insertById x (sortById xs)

/-- sql.get_instance_by_id: point lookup adding the id equality to the
filtered select; session.scalar returns the first row or None. -/
def get_instance_by_id {α : Type} [Row α] (rows : List α) (obj_id : Nat)
    (filtration : Option (α → Bool)) : Option α :=
  (select_and_filter rows filtration).find? (fun r => decide (Row.rid r = obj_id))

/-- sql.get_all_instance: the filtered select, ordered by id. -/
def get_all_instance {α : Type} [Row α] (rows : List α)
    (filtration : Option (α → Bool)) : List α :=
  sortById (select_and_filter rows filtration)

end sql

/-- The HTTP Basic credential pair handed to the auth dependencies. -/
structure HTTPBasicCredentials where
  username : String
  password : String
deriving DecidableEq

/-- depends.get_current_user: looks the credential's username up in the
Account table (a bare select with no soft-delete predicate, exactly as in
the source) and fails UnauthorizedError when no row matches. -/
def get_current_user (db : DB) (credentials : HTTPBasicCredentials) : Except ApiError Account :=
  let current_username := credentials.username
  match db.accounts.find? (fun a => decide (a.name = current_username)) with
  | none => Except.error ApiError.unauthorizedError
  | some obj => Except.ok obj

/-- depends.get_super_user: resolves the current user and rejects
non-admins. -/
def get_super_user (db : DB) (credentials : HTTPBasicCredentials) : Except ApiError Account :=
  match get_current_user db credentials with
  | Except.error e => Except.error e
  | Except.ok user => if user.is_admin then Except.ok user else Except.error ApiError.unauthorizedError

/-- Overwrite of the row whose primary key is tid by the mutated object
(Python mutates the fetched ORM instance in place). -/
def updateById {α : Type} [Row α] (rows : List α) (tid : Nat) (t : α) : List α :=
  rows.map (fun r => if Row.rid r = tid then t else r)

namespace CrudResolver

/-- CrudResolver.get_instance_by_id: sql point lookup under the resolver's
filtration, raising UndefinedError (the spec's NotFound) on no row. -/
def get_instance_by_id {α : Type} [Row α] (rows : List α) (obj_id : Nat)
    (filtration : Option (α → Bool)) : Except ApiError α :=
  match sql.get_instance_by_id rows obj_id filtration with
  | none => Except.error ApiError.undefinedError
  | some obj => Except.ok obj

/-- CrudResolver.delete_by_id: fetch under the filtration, then set the
fetched row's deleted_at to the current time. -/
def delete_by_id {α : Type} [Row α] (rows : List α) (obj_id : Nat)
    (filtration : Option (α → Bool)) (now : Nat) : Except ApiError (List α) :=
  match get_instance_by_id rows obj_id filtration with
  | Except.error e => Except.error e
  | Except.ok obj => Except.ok (updateById rows (Row.rid obj) (Row.setDeletedAt obj (some now)))

/-- CrudResolver.get_all: list under the resolver's filtration. -/
def get_all {α : Type} [Row α] (rows : List α) (filtration : Option (α → Bool)) : List α :=
  sql.get_all_instance rows filtration

end CrudResolver

/-- The request body of Money creation and update (schemes.CreateMoney). -/
structure CreateMoneyScheme where
  description : String
  nominal_price : Nat
  release_year : String
  serial_number : String
  type_money : Nat
  currency : Nat
  mint : Nat
  issuing_state : Nat
deriving DecidableEq

namespace MoneyResolver

/-- MoneyResolver.get_filtration: the ownership filter Money.user == user.id. -/
def get_filtration (user : Account) : Money → Bool :=
  fun m => decide (m.user = user.id)

/-- One branch of the union_all in MoneyResolver.validate: the select that
yields the literal attr name once per catalog row matching the referenced id
and the soft-delete predicate. -/
def fk_select (attr : String) (rows : List CatalogRow) (ref : Nat) : List String :=
  (rows.filter (fun r => decide (r.id = ref) && sql.get_filter_by_existing r)).map (fun _ => attr)

/-- The union_all over the four catalog selects in MoneyResolver.validate. -/
def money_existing (db : DB) (scheme : CreateMoneyScheme) : List String :=
  fk_select "type_money" db.type_moneys scheme.type_money ++
    fk_select "currency" db.currencys scheme.currency ++
    fk_select "mint" db.mints scheme.mint ++
    fk_select "issuing_state" db.issuing_states scheme.issuing_state

/-- The Counter difference of MoneyResolver.validate: each field name occurs
once, so the difference is the list of field names absent from the union, in
field order. -/
def money_missing_keys (db : DB) (scheme : CreateMoneyScheme) : List String :=
  (["type_money", "currency", "mint", "issuing_state"]).filter
    (fun k => !(decide (k ∈ money_existing db scheme)))

/-- MoneyResolver.validate: raises MissingObjectsError on the nonempty list
of field names whose catalog lookup found no live row. -/
def validate (db : DB) (scheme : CreateMoneyScheme) : Except ApiError Unit :=
  if (money_missing_keys db scheme).isEmpty then Except.ok ()
  else Except.error (ApiError.missingObjectsError (money_missing_keys db scheme))

/-- MoneyResolver.get_by_id: the admin branch calls the inherited get_by_id,
which dispatches back to this resolver's get_filtration, so both branches
fetch under the ownership filter. -/
def get_by_id (db : DB) (obj_id : Nat) (user : Account) : Except ApiError Money :=
  if user.is_admin then
    CrudResolver.get_instance_by_id db.moneys obj_id (some (get_filtration user))
  else
    CrudResolver.get_instance_by_id db.moneys obj_id (some (get_filtration user))

/-- MoneyResolver.delete_by_id: the inherited soft delete, fetching under
this resolver's ownership filtration (the override only relaxes the
dependency from get_super_user to get_current_user). -/
def delete_by_id (db : DB) (obj_id : Nat) (user : Account) (now : Nat) : Except ApiError DB :=
  match CrudResolver.delete_by_id db.moneys obj_id (some (get_filtration user)) now with
  | Except.error e => Except.error e
  | Except.ok moneys => Except.ok { db with moneys := moneys }

/-- CrudUpdateResolver.update_model as dispatched for Money: validate the
scheme, fetch under the ownership filtration, overwrite the scalar fields. -/
def update_model (db : DB) (obj_id : Nat) (scheme : CreateMoneyScheme) (user : Account) :
    Except ApiError (Money × DB) :=
  match validate db scheme with
  | Except.error e => Except.error e
  | Except.ok _ =>
    match CrudResolver.get_instance_by_id db.moneys obj_id (some (get_filtration user)) with
    | Except.error e => Except.error e
    | Except.ok obj =>
      let obj' := { obj with
        description := scheme.description
        nominal_price := scheme.nominal_price
        release_year := scheme.release_year
        serial_number := scheme.serial_number
        type_money := scheme.type_money
        currency := scheme.currency
        mint := scheme.mint
        issuing_state := scheme.issuing_state }
      Except.ok (obj', { db with moneys := updateById db.moneys obj.id obj' })

/-- MoneyResolver.get_all_money_for_super_user: full scan with no
filtration (beyond the soft-delete predicate). -/
def get_all_money_for_super_user (db : DB) : List Money :=
  sql.get_all_instance db.moneys none

end MoneyResolver

/-- The request body of transfer creation (schemes.CreateTransfer). -/
structure CreateTransferScheme where
  source : Nat
  destination : Nat
  comment : String
  money : Nat
deriving DecidableEq

namespace TransferResolver

/-- TransferResolver.get_filtration: status == initial, and destination ==
user.id unless the user is an admin. -/
def get_filtration (user : Account) : Transfer → Bool :=
  fun t =>
    decide (t.status = StatusTransfer.initial) &&
      (user.is_admin || decide (t.destination = user.id))

/-- TransferResolver.get_filtration_by_source: the duplicate-transfer scan
predicate source == user.id, money == money.id, status == initial (the
source Account is passed as the user argument in validate_transfer). -/
def get_filtration_by_source (user : Account) (money : Money) : Transfer → Bool :=
  fun t =>
    decide (t.source = user.id) && decide (t.money = money.id) &&
      decide (t.status = StatusTransfer.initial)

/-- TransferResolver.validate_transfer: resolve source, destination and the
locked item, then check MissingObjects, OwnerMismatch, SelfTransfer and the
active-duplicate Unique guard, in the order of the source. -/
def validate_transfer (db : DB) (scheme : CreateTransferScheme) :
    Except ApiError (Account × Account × Money) :=
  match sql.get_instance_by_id db.accounts scheme.source none,
        sql.get_instance_by_id db.accounts scheme.destination none,
        sql.get_instance_by_id db.moneys scheme.money (some with_for_update) with
  | some source, some destination, some money =>
    if money.user ≠ source.id then Except.error ApiError.ownerMismatchError
    else if source.id = destination.id then Except.error ApiError.selfTransferError
    else if (sql.get_all_instance db.transfers
        (some (get_filtration_by_source source money))).isEmpty then
      Except.ok (source, destination, money)
    else Except.error ApiError.uniqueError
  | _, _, _ => Except.error (ApiError.missingObjectsError [])

/-- TransferResolver.create_transfer: validate, then insert the new row
with status initial (nid is the identity the store assigns at flush). -/
def create_transfer (db : DB) (scheme : CreateTransferScheme) (user : Account)
    (now : Nat) (nid : Nat) : Except ApiError (Transfer × DB) :=
  match validate_transfer db scheme with
  | Except.error e => Except.error e
  | Except.ok (source, destination, money) =>
    let transfer : Transfer := {
      id := nid
      deleted_at := none
      source := source.id
      destination := destination.id
      creater := user.id
      created_at := now
      closed_at := none
      comment := scheme.comment
      money := money.id
      status := StatusTransfer.initial }
    Except.ok (transfer, { db with transfers := db.transfers ++ [transfer] })

/-- TransferResolver.approve with the inlined move_money: fetch the transfer
under the visibility filtration, re-fetch the locked item, re-check the
owner against the transfer's source, then close the transfer and hand the
item to user.id (the caller, as the source literally does). -/
def approve (db : DB) (obj_id : Nat) (user : Account) (now : Nat) :
    Except ApiError (Money × DB) :=
  match CrudResolver.get_instance_by_id db.transfers obj_id (some (get_filtration user)) with
  | Except.error e => Except.error e
  | Except.ok transfer =>
    match sql.get_instance_by_id db.moneys transfer.money (some with_for_update) with
    | some money =>
      if money.user = transfer.source then
        let transfer' := { transfer with closed_at := some now, status := StatusTransfer.approved }
        let money' := { money with user := user.id }
        Except.ok (money', { db with
          transfers := updateById db.transfers transfer.id transfer'
          moneys := updateById db.moneys money.id money' })
      else Except.error (ApiError.missingObjectsError [toString transfer.money])
    | none => Except.error (ApiError.missingObjectsError [toString transfer.money])

/-- TransferResolver.decline: fetch the transfer under the visibility
filtration, stamp closed_at and set status declined; no item mutation. -/
def decline (db : DB) (obj_id : Nat) (user : Account) (now : Nat) : Except ApiError DB :=
  match CrudResolver.get_instance_by_id db.transfers obj_id (some (get_filtration user)) with
  | Except.error e => Except.error e
  | Except.ok transfer =>
    let transfer' := { transfer with closed_at := some now, status := StatusTransfer.declined }
    Except.ok { db with transfers := updateById db.transfers transfer.id transfer' }

end TransferResolver

/-- Whether some live catalog row carries the referenced id: the where
clause of one branch of the union in MoneyResolver.validate, stated as a
per-table scan for the claim about exact missing keys. -/
def catalog_ref_live (rows : List CatalogRow) (ref : Nat) : Bool :=
  rows.any (fun r => decide (r.id = ref) && sql.get_filter_by_existing r)

/-! Concrete rows and databases used by witnesses and counterexamples. -/

/-- A live admin account. -/
def rootAcct : Account := { id := 1, deleted_at := none, name := "root", is_admin := true }

/-- A live standard account. -/
def acctA : Account := { id := 2, deleted_at := none, name := "a", is_admin := false }

/-- Another live standard account. -/
def acctB : Account := { id := 3, deleted_at := none, name := "b", is_admin := false }

/-- A soft-deleted account. -/
def ghostAcct : Account := { id := 4, deleted_at := some 5, name := "ghost", is_admin := false }

/-- A live catalog row with id 1. -/
def cat1 : CatalogRow := { id := 1, deleted_at := none }

/-- Item number 7, owned by the given account id, referencing catalog id 1
four times. -/
def money7 (owner : Nat) : Money :=
  { id := 7, deleted_at := none, description := "m", nominal_price := 1,
    release_year := "2020", serial_number := "sn", user := owner,
    type_money := 1, currency := 1, mint := 1, issuing_state := 1 }

/-- The still-open transfer of item 7 from account 2 to account 3. -/
def transfer10 : Transfer :=
  { id := 10, deleted_at := none, source := 2, destination := 3, creater := 1,
    created_at := 0, closed_at := none, comment := "c", money := 7,
    status := StatusTransfer.initial }

/-- A database with the three live accounts, the soft-deleted account, live
catalog rows, item 7 owned by account 2, and the open transfer 10. -/
def exdb : DB :=
  { accounts := [rootAcct, acctA, acctB, ghostAcct]
    type_moneys := [cat1]
    currencys := [cat1]
    mints := [cat1]
    issuing_states := [cat1]
    moneys := [money7 2]
    transfers := [transfer10] }

/-- The self-transfer request of claim C4: source and destination are both
account 2, which owns item 7. -/
def c4scheme : CreateTransferScheme :=
  { source := 2, destination := 2, comment := "c", money := 7 }

/-- The request falsifying claim C4 as stated: source and destination are
both account 3, which does not own item 7. -/
def c4badScheme : CreateTransferScheme :=
  { source := 3, destination := 3, comment := "c", money := 7 }

/-- A well-formed Money creation payload referencing catalog id 1 four
times. -/
def goodMoneyScheme : CreateMoneyScheme :=
  { description := "d", nominal_price := 1, release_year := "2020",
    serial_number := "sn", type_money := 1, currency := 1, mint := 1,
    issuing_state := 1 }

/-- An already-approved transfer of item 7 from account 2 to account 3. -/
def closedTransfer : Transfer :=
  { id := 11, deleted_at := none, source := 2, destination := 3, creater := 1,
    created_at := 0, closed_at := some 50, comment := "c", money := 7,
    status := StatusTransfer.approved }

/-- The example database with both the open transfer 10 and the closed
transfer 11. -/
def c5db : DB := { exdb with transfers := [transfer10, closedTransfer] }

/-- A transfer row that is open and visible: not soft-deleted and with
status initial (the spec's "active transfer"; per the global soft-delete
invariant, a row "exists" through normal access paths only while
deleted_at IS NULL). -/
def isActive (t : Transfer) : Prop :=
  t.deleted_at = none ∧ t.status = StatusTransfer.initial

instance (t : Transfer) : Decidable (isActive t) := by
  unfold isActive
  infer_instance

/-- Two transfer rows do not both claim the same (source, item) pair while
active. -/
def NoConflict (a b : Transfer) : Prop :=
  isActive a → isActive b → a.source = b.source → a.money = b.money → False

/-- At most one active transfer per (source, item) pair in the table. -/
def AtMostOneActive (ts : List Transfer) : Prop :=
  ts.Pairwise NoConflict

/-- One engine request mutating the database: the transfer state machine
operations, the generic soft delete on the transfer table, and (as the
frame case) every request that leaves the transfer table unchanged — all
Money, Account and catalog endpoints. -/
inductive Step : DB → DB → Prop where
  | createTransfer (db : DB) (s : CreateTransferScheme) (u : Account) (now nid : Nat)
      (t : Transfer) (db' : DB)
      (h : TransferResolver.create_transfer db s u now nid = Except.ok (t, db')) :
      Step db db'
  | approveTransfer (db : DB) (oid : Nat) (u : Account) (now : Nat) (m : Money) (db' : DB)
      (h : TransferResolver.approve db oid u now = Except.ok (m, db')) :
      Step db db'
  | declineTransfer (db : DB) (oid : Nat) (u : Account) (now : Nat) (db' : DB)
      (h : TransferResolver.decline db oid u now = Except.ok db') :
      Step db db'
  | deleteTransfer (db : DB) (oid : Nat) (u : Account) (now : Nat) (ts : List Transfer)
      (h : CrudResolver.delete_by_id db.transfers oid
        (some (TransferResolver.get_filtration u)) now = Except.ok ts) :
      Step db { db with transfers := ts }
  | frame (db db' : DB) (h : db'.transfers = db.transfers) : Step db db'

/-- Database states reachable by the engine from a state with an empty
transfer table. -/
inductive Reach : DB → Prop where
  | init (db : DB) (h : db.transfers = []) : Reach db
  | step (db db' : DB) (h1 : Reach db) (h2 : Step db db') : Reach db'

/-! Theorems from here on. -/

theorem sql.mem_insertById {α : Type} [Row α] (a t : α) (l : List α) :
    a ∈ sql.insertById t l ↔ a = t ∨ a ∈ l := by
  induction l with
  | nil => simp [sql.insertById]
  | cons x xs ih =>
    simp only [sql.insertById]
    split
    · simp
    · simp [ih]
      tauto

theorem sql.mem_sortById {α : Type} [Row α] (a : α) (l : List α) :
    a ∈ sql.sortById l ↔ a ∈ l := by
  induction l with
  | nil => simp [sql.sortById]
  | cons x xs ih => simp [sql.sortById, sql.mem_insertById, ih]

theorem sql.mem_select_and_filter {α : Type} [Row α] (a : α) (rows : List α) (f : α → Bool) :
    a ∈ sql.select_and_filter rows (some f) ↔
      a ∈ rows ∧ Row.deletedAt a = none ∧ f a = true := by
  simp [sql.select_and_filter, List.mem_filter, sql.get_filter_by_existing]
  tauto

theorem sql.mem_select_and_filter_none {α : Type} [Row α] (a : α) (rows : List α) :
    a ∈ sql.select_and_filter rows none ↔ a ∈ rows ∧ Row.deletedAt a = none := by
  simp [sql.select_and_filter, List.mem_filter, sql.get_filter_by_existing]

theorem sql.mem_get_all_instance {α : Type} [Row α] (a : α) (rows : List α) (f : α → Bool) :
    a ∈ sql.get_all_instance rows (some f) ↔
      a ∈ rows ∧ Row.deletedAt a = none ∧ f a = true := by
  rw [sql.get_all_instance, sql.mem_sortById, sql.mem_select_and_filter]

theorem sql.mem_get_all_instance_none {α : Type} [Row α] (a : α) (rows : List α) :
    a ∈ sql.get_all_instance rows none ↔ a ∈ rows ∧ Row.deletedAt a = none := by
  rw [sql.get_all_instance, sql.mem_sortById, sql.mem_select_and_filter_none]

theorem sql.get_instance_by_id_some {α : Type} [Row α] {rows : List α} {obj_id : Nat}
    {f : α → Bool} {a : α} (h : sql.get_instance_by_id rows obj_id (some f) = some a) :
    a ∈ rows ∧ Row.deletedAt a = none ∧ f a = true ∧ Row.rid a = obj_id := by
  have hmem := List.mem_of_find?_eq_some h
  have hp := List.find?_some h
  rw [sql.mem_select_and_filter] at hmem
  simp only [decide_eq_true_eq] at hp
  exact ⟨hmem.1, hmem.2.1, hmem.2.2, hp⟩

theorem sql.get_instance_by_id_some_none_filt {α : Type} [Row α] {rows : List α} {obj_id : Nat}
    {a : α} (h : sql.get_instance_by_id rows obj_id none = some a) :
    a ∈ rows ∧ Row.deletedAt a = none ∧ Row.rid a = obj_id := by
  have hmem := List.mem_of_find?_eq_some h
  have hp := List.find?_some h
  rw [sql.mem_select_and_filter_none] at hmem
  simp only [decide_eq_true_eq] at hp
  exact ⟨hmem.1, hmem.2, hp⟩

theorem sql.get_instance_by_id_eq_none {α : Type} [Row α] {rows : List α} {obj_id : Nat}
    {f : α → Bool}
    (h : ∀ a ∈ rows, Row.deletedAt a = none → f a = true → Row.rid a ≠ obj_id) :
    sql.get_instance_by_id rows obj_id (some f) = none := by
  rw [sql.get_instance_by_id, List.find?_eq_none]
  intro a ha
  rw [sql.mem_select_and_filter] at ha
  simp only [decide_eq_true_eq]
  exact h a ha.1 ha.2.1 ha.2.2

/-! Generic facts about the engine, shared by several claims. -/

theorem sql.get_instance_by_id_some_any {α : Type} [Row α] {rows : List α} {obj_id : Nat}
    {filt : Option (α → Bool)} {a : α} (h : sql.get_instance_by_id rows obj_id filt = some a) :
    a ∈ rows ∧ Row.deletedAt a = none ∧ Row.rid a = obj_id := by
  cases filt with
  | none => exact sql.get_instance_by_id_some_none_filt h
  | some f =>
    obtain ⟨h1, h2, _, h4⟩ := sql.get_instance_by_id_some h
    exact ⟨h1, h2, h4⟩

theorem sql.get_instance_by_id_none_of_deleted {α : Type} [Row α] {rows : List α} {obj_id : Nat}
    (filt : Option (α → Bool))
    (h : ∀ a ∈ rows, Row.rid a = obj_id → Row.deletedAt a ≠ none) :
    sql.get_instance_by_id rows obj_id filt = none := by
  rw [sql.get_instance_by_id, List.find?_eq_none]
  intro a ha
  have hmem : a ∈ rows ∧ Row.deletedAt a = none := by
    cases filt with
    | none => exact sql.mem_select_and_filter_none a rows |>.mp ha
    | some f =>
      have := (sql.mem_select_and_filter a rows f).mp ha
      exact ⟨this.1, this.2.1⟩
  simp only [decide_eq_true_eq]
  intro heq
  exact h a hmem.1 heq hmem.2

theorem CrudResolver.get_instance_by_id_ok_iff {α : Type} [Row α] {rows : List α}
    {obj_id : Nat} {filt : Option (α → Bool)} {a : α} :
    CrudResolver.get_instance_by_id rows obj_id filt = Except.ok a ↔
      sql.get_instance_by_id rows obj_id filt = some a := by
  unfold CrudResolver.get_instance_by_id
  cases h : sql.get_instance_by_id rows obj_id filt <;> simp

theorem CrudResolver.get_instance_by_id_err_iff {α : Type} [Row α] {rows : List α}
    {obj_id : Nat} {filt : Option (α → Bool)} :
    CrudResolver.get_instance_by_id rows obj_id filt = Except.error ApiError.undefinedError ↔
      sql.get_instance_by_id rows obj_id filt = none := by
  unfold CrudResolver.get_instance_by_id
  cases h : sql.get_instance_by_id rows obj_id filt <;> simp

theorem CrudResolver.delete_by_id_ok {α : Type} [Row α] {rows rows' : List α}
    {obj_id now : Nat} {filt : Option (α → Bool)}
    (h : CrudResolver.delete_by_id rows obj_id filt now = Except.ok rows') :
    ∃ obj, sql.get_instance_by_id rows obj_id filt = some obj ∧
      rows' = updateById rows (Row.rid obj) (Row.setDeletedAt obj (some now)) := by
  unfold CrudResolver.delete_by_id at h
  cases hfetch : CrudResolver.get_instance_by_id rows obj_id filt with
  | error e => rw [hfetch] at h; cases h
  | ok obj =>
    rw [hfetch] at h
    refine ⟨obj, CrudResolver.get_instance_by_id_ok_iff.mp hfetch, ?_⟩
    cases h
    rfl

theorem deleted_after_delete_by_id {α : Type} [Row α] {rows rows' : List α}
    {obj_id now : Nat} {filt : Option (α → Bool)}
    (h : CrudResolver.delete_by_id rows obj_id filt now = Except.ok rows') :
    ∀ r ∈ rows', Row.rid r = obj_id → Row.deletedAt r ≠ none := by
  obtain ⟨obj, hfetch, hrows⟩ := CrudResolver.delete_by_id_ok h
  have hid : Row.rid obj = obj_id := (sql.get_instance_by_id_some_any hfetch).2.2
  subst hrows
  intro r hr hrid
  rw [updateById, List.mem_map] at hr
  obtain ⟨r0, _, hr0⟩ := hr
  by_cases hcase : Row.rid r0 = Row.rid obj
  · rw [if_pos hcase] at hr0
    rw [← hr0, Row.deletedAt_setDeletedAt]
    simp
  · rw [if_neg hcase] at hr0
    rw [← hr0] at hrid
    exact absurd (hrid.trans hid.symm) hcase

@[simp] theorem rid_account (a : Account) : Row.rid a = a.id := rfl

@[simp] theorem deletedAt_account (a : Account) : Row.deletedAt a = a.deleted_at := rfl

@[simp] theorem rid_catalog (c : CatalogRow) : Row.rid c = c.id := rfl

@[simp] theorem deletedAt_catalog (c : CatalogRow) : Row.deletedAt c = c.deleted_at := rfl

@[simp] theorem rid_money (m : Money) : Row.rid m = m.id := rfl

@[simp] theorem deletedAt_money (m : Money) : Row.deletedAt m = m.deleted_at := rfl

@[simp] theorem rid_transfer (t : Transfer) : Row.rid t = t.id := rfl

@[simp] theorem deletedAt_transfer (t : Transfer) : Row.deletedAt t = t.deleted_at := rfl

/-- C9: principal resolution reads only the username of the credential: two
credentials with equal usernames resolve identically, whatever the
passwords; no password is ever compared against stored data. -/
theorem auth_depends_only_on_username (db : DB) (c1 c2 : HTTPBasicCredentials)
    (h : c1.username = c2.username) :
    get_current_user db c1 = get_current_user db c2 := by
  unfold get_current_user
  rw [h]

/-- Witness for C9 at equal usernames and different passwords. -/
theorem auth_depends_only_on_username_witness :
    (HTTPBasicCredentials.mk "a" "pw1").username = (HTTPBasicCredentials.mk "a" "pw2").username ∧
    get_current_user exdb (HTTPBasicCredentials.mk "a" "pw1") =
      get_current_user exdb (HTTPBasicCredentials.mk "a" "pw2") :=
  ⟨rfl, auth_depends_only_on_username exdb _ _ rfl⟩

/-- C3 (divergence witness): the credential lookup of get_current_user has
no soft-delete predicate, so the username of a soft-deleted account still
resolves to that account and the request proceeds, where the claim and the
spec require UnauthorizedError. -/
theorem get_current_user_admits_soft_deleted :
    get_current_user exdb (HTTPBasicCredentials.mk "ghost" "pw") = Except.ok ghostAcct ∧
    ghostAcct.deleted_at = some 5 := by
  exact ⟨rfl, rfl⟩

/-- C7: a successful soft delete makes a subsequent fetch of the same id
fail with UndefinedError (NotFound) under every filtration, and a repeated
soft delete of the same id fail likewise, for every entity type. -/
theorem soft_delete_then_fetch_not_found {α : Type} [Row α] {rows rows' : List α}
    {obj_id now : Nat} {filt : Option (α → Bool)}
    (filt2 filt3 : Option (α → Bool)) (now2 : Nat)
    (h : CrudResolver.delete_by_id rows obj_id filt now = Except.ok rows') :
    CrudResolver.get_instance_by_id rows' obj_id filt2 = Except.error ApiError.undefinedError ∧
    CrudResolver.delete_by_id rows' obj_id filt3 now2 = Except.error ApiError.undefinedError := by
  have hdel := deleted_after_delete_by_id h
  have hnone : ∀ f : Option (α → Bool), sql.get_instance_by_id rows' obj_id f = none :=
    fun f => sql.get_instance_by_id_none_of_deleted f hdel
  constructor
  · exact CrudResolver.get_instance_by_id_err_iff.mpr (hnone filt2)
  · unfold CrudResolver.delete_by_id
    rw [CrudResolver.get_instance_by_id_err_iff.mpr (hnone filt3)]

/-- Witness for C7: delete item 7, then fetch it and delete it again. -/
theorem soft_delete_then_fetch_not_found_witness :
    CrudResolver.delete_by_id [money7 2] 7 (none : Option (Money → Bool)) 5 =
      Except.ok [{ money7 2 with deleted_at := some 5 }] ∧
    (CrudResolver.get_instance_by_id [{ money7 2 with deleted_at := some 5 }] 7
        (none : Option (Money → Bool)) = Except.error ApiError.undefinedError ∧
      CrudResolver.delete_by_id [{ money7 2 with deleted_at := some 5 }] 7
        (none : Option (Money → Bool)) 6 = Except.error ApiError.undefinedError) := by
  have h : CrudResolver.delete_by_id [money7 2] 7 (none : Option (Money → Bool)) 5 =
      Except.ok [{ money7 2 with deleted_at := some 5 }] := by rfl
  exact ⟨h, soft_delete_then_fetch_not_found none none 6 h⟩

/-- C4 counterexample: a creation request whose source equals its
destination, with both accounts and the item live, fails with
OwnerMismatchError rather than SelfTransferError when the item's owner
differs from the source, because validate_transfer checks ownership first. -/
theorem self_transfer_claim_counterexample :
    sql.get_instance_by_id exdb.accounts c4badScheme.source none = some acctB ∧
    sql.get_instance_by_id exdb.accounts c4badScheme.destination none = some acctB ∧
    sql.get_instance_by_id exdb.moneys c4badScheme.money (some with_for_update) = some (money7 2) ∧
    c4badScheme.source = c4badScheme.destination ∧
    TransferResolver.create_transfer exdb c4badScheme rootAcct 0 99 =
      Except.error ApiError.ownerMismatchError ∧
    ApiError.ownerMismatchError ≠ ApiError.selfTransferError := by
  refine ⟨rfl, rfl, rfl, rfl, by rfl, by decide⟩

/-- C4 amended: a creation request whose source equals its destination,
with both accounts and the item resolving and the item's current owner
equal to the stated source, fails with SelfTransferError. -/
theorem self_transfer_after_owner_check (db : DB) (s : CreateTransferScheme) (u : Account)
    (now nid : Nat) (src dst : Account) (mny : Money)
    (hs : sql.get_instance_by_id db.accounts s.source none = some src)
    (hd : sql.get_instance_by_id db.accounts s.destination none = some dst)
    (hm : sql.get_instance_by_id db.moneys s.money (some with_for_update) = some mny)
    (howner : mny.user = src.id)
    (heq : s.source = s.destination) :
    TransferResolver.create_transfer db s u now nid = Except.error ApiError.selfTransferError := by
  have h1 : src.id = s.source := (sql.get_instance_by_id_some_none_filt hs).2.2
  have h2 : dst.id = s.destination := (sql.get_instance_by_id_some_none_filt hd).2.2
  have hids : src.id = dst.id := by rw [h1, heq, ← h2]
  have hval : TransferResolver.validate_transfer db s = Except.error ApiError.selfTransferError := by
    unfold TransferResolver.validate_transfer
    rw [hs, hd, hm]
    dsimp only
    rw [if_neg (by simp [howner]), if_pos hids]
  unfold TransferResolver.create_transfer
  rw [hval]

/-- Witness for the amended C4 at a request from account 2 to itself for
its own item 7. -/
theorem self_transfer_after_owner_check_witness :
    sql.get_instance_by_id exdb.accounts c4scheme.source none = some acctA ∧
    sql.get_instance_by_id exdb.accounts c4scheme.destination none = some acctA ∧
    sql.get_instance_by_id exdb.moneys c4scheme.money (some with_for_update) = some (money7 2) ∧
    (money7 2).user = acctA.id ∧
    c4scheme.source = c4scheme.destination ∧
    TransferResolver.create_transfer exdb c4scheme rootAcct 0 99 =
      Except.error ApiError.selfTransferError :=
  ⟨rfl, rfl, rfl, rfl, rfl,
    self_transfer_after_owner_check exdb c4scheme rootAcct 0 99 acctA acctA (money7 2)
      rfl rfl rfl rfl rfl⟩

/-- C8: under the transfer visibility filtration, listing returns exactly
the live transfers with status initial that are addressed to the principal,
the destination restriction waived for admins, and a fetched transfer
likewise has status initial and is addressed to the principal unless the
principal is an admin. -/
theorem transfer_visibility_filtration (u : Account) (ts : List Transfer) :
    (∀ t : Transfer, t ∈ CrudResolver.get_all ts (some (TransferResolver.get_filtration u)) ↔
      (t ∈ ts ∧ t.deleted_at = none ∧ t.status = StatusTransfer.initial ∧
        (u.is_admin = true ∨ t.destination = u.id))) ∧
    (∀ (tid : Nat) (t : Transfer),
      CrudResolver.get_instance_by_id ts tid (some (TransferResolver.get_filtration u)) =
          Except.ok t →
      t.status = StatusTransfer.initial ∧ (u.is_admin = true ∨ t.destination = u.id)) := by
  constructor
  · intro t
    rw [CrudResolver.get_all, sql.mem_get_all_instance]
    simp [TransferResolver.get_filtration, and_assoc]
  · intro tid t h
    have hall := sql.get_instance_by_id_some (CrudResolver.get_instance_by_id_ok_iff.mp h)
    have hf := hall.2.2.1
    simp [TransferResolver.get_filtration] at hf
    exact hf

/-- C10: every per-id Money operation fetches under the ownership
filtration, so any principal, admins included, gets UndefinedError
(NotFound) on an item it does not own, while the separate
get_all_money_for_super_user scan returns every live item regardless of
owner. -/
theorem money_per_id_ops_owner_scoped (db : DB) (user : Account) (obj_id now : Nat)
    (scheme : CreateMoneyScheme)
    (h : ∀ m : Money, m ∈ db.moneys → m.id = obj_id → m.user ≠ user.id) :
    MoneyResolver.get_by_id db obj_id user = Except.error ApiError.undefinedError ∧
    MoneyResolver.delete_by_id db obj_id user now = Except.error ApiError.undefinedError ∧
    (MoneyResolver.validate db scheme = Except.ok () →
      MoneyResolver.update_model db obj_id scheme user = Except.error ApiError.undefinedError) ∧
    (∀ m : Money, m ∈ MoneyResolver.get_all_money_for_super_user db ↔
      (m ∈ db.moneys ∧ m.deleted_at = none)) := by
  have key : sql.get_instance_by_id db.moneys obj_id
      (some (MoneyResolver.get_filtration user)) = none := by
    apply sql.get_instance_by_id_eq_none
    intro a ha _ hf
    simp [MoneyResolver.get_filtration] at hf
    simp only [rid_money]
    intro hid
    exact h a ha hid hf
  have keyE := CrudResolver.get_instance_by_id_err_iff.mpr key
  refine ⟨?_, ?_, ?_, ?_⟩
  · unfold MoneyResolver.get_by_id
    split <;> exact keyE
  · unfold MoneyResolver.delete_by_id CrudResolver.delete_by_id
    rw [keyE]
  · intro hv
    unfold MoneyResolver.update_model
    rw [hv, keyE]
  · intro m
    rw [MoneyResolver.get_all_money_for_super_user, sql.mem_get_all_instance_none]
    simp

/-- Witness for C10: the admin principal gets UndefinedError on item 7,
which account 2 owns. -/
theorem money_per_id_ops_owner_scoped_witness :
    (∀ m : Money, m ∈ exdb.moneys → m.id = 7 → m.user ≠ rootAcct.id) ∧
    (MoneyResolver.get_by_id exdb 7 rootAcct = Except.error ApiError.undefinedError ∧
      MoneyResolver.delete_by_id exdb 7 rootAcct 5 = Except.error ApiError.undefinedError ∧
      (MoneyResolver.validate exdb goodMoneyScheme = Except.ok () →
        MoneyResolver.update_model exdb 7 goodMoneyScheme rootAcct =
          Except.error ApiError.undefinedError) ∧
      (∀ m : Money, m ∈ MoneyResolver.get_all_money_for_super_user exdb ↔
        (m ∈ exdb.moneys ∧ m.deleted_at = none))) :=
  ⟨by decide, money_per_id_ops_owner_scoped exdb rootAcct 7 5 goodMoneyScheme (by decide)⟩

theorem mem_fk_select (attr : String) (rows : List CatalogRow) (ref : Nat) (x : String) :
    x ∈ MoneyResolver.fk_select attr rows ref ↔
      (x = attr ∧ catalog_ref_live rows ref = true) := by
  simp only [MoneyResolver.fk_select, catalog_ref_live, List.mem_map, List.mem_filter,
    List.any_eq_true]
  constructor
  · rintro ⟨a, ha, rfl⟩
    exact ⟨rfl, a, ha.1, ha.2⟩
  · rintro ⟨rfl, a, ha, hp⟩
    exact ⟨a, ⟨ha, hp⟩, rfl⟩

theorem mem_money_existing (db : DB) (s : CreateMoneyScheme) (k : String) :
    k ∈ MoneyResolver.money_existing db s ↔
      ((k = "type_money" ∧ catalog_ref_live db.type_moneys s.type_money = true) ∨
       (k = "currency" ∧ catalog_ref_live db.currencys s.currency = true) ∨
       (k = "mint" ∧ catalog_ref_live db.mints s.mint = true) ∨
       (k = "issuing_state" ∧ catalog_ref_live db.issuing_states s.issuing_state = true)) := by
  simp [MoneyResolver.money_existing, List.mem_append, mem_fk_select, or_assoc]

theorem mem_money_missing_keys (db : DB) (s : CreateMoneyScheme) (k : String) :
    k ∈ MoneyResolver.money_missing_keys db s ↔
      (k ∈ (["type_money", "currency", "mint", "issuing_state"] : List String) ∧
        k ∉ MoneyResolver.money_existing db s) := by
  simp [MoneyResolver.money_missing_keys, List.mem_filter]

theorem money_missing_keys_nil_iff (db : DB) (s : CreateMoneyScheme) :
    MoneyResolver.money_missing_keys db s = [] ↔
      (catalog_ref_live db.type_moneys s.type_money = true ∧
       catalog_ref_live db.currencys s.currency = true ∧
       catalog_ref_live db.mints s.mint = true ∧
       catalog_ref_live db.issuing_states s.issuing_state = true) := by
  rw [List.eq_nil_iff_forall_not_mem]
  constructor
  · intro h
    refine ⟨?_, ?_, ?_, ?_⟩
    · have := h "type_money"
      rw [mem_money_missing_keys] at this
      simp [mem_money_existing] at this
      exact this
    · have := h "currency"
      rw [mem_money_missing_keys] at this
      simp [mem_money_existing] at this
      exact this
    · have := h "mint"
      rw [mem_money_missing_keys] at this
      simp [mem_money_existing] at this
      exact this
    · have := h "issuing_state"
      rw [mem_money_missing_keys] at this
      simp [mem_money_existing] at this
      exact this
  · rintro ⟨h1, h2, h3, h4⟩ k hk
    rw [mem_money_missing_keys] at hk
    obtain ⟨hkin, hknot⟩ := hk
    apply hknot
    rw [mem_money_existing]
    simp at hkin
    rcases hkin with rfl | rfl | rfl | rfl
    · exact Or.inl ⟨rfl, h1⟩
    · exact Or.inr (Or.inl ⟨rfl, h2⟩)
    · exact Or.inr (Or.inr (Or.inl ⟨rfl, h3⟩))
    · exact Or.inr (Or.inr (Or.inr ⟨rfl, h4⟩))

/-- C6: Money validation succeeds exactly when all four catalog references
resolve to a live row, and otherwise fails with MissingObjectsError whose
key list contains precisely the invalid reference names among the four
field names. -/
theorem money_validate_exact_keys (db : DB) (s : CreateMoneyScheme) :
    (MoneyResolver.validate db s = Except.ok () ↔
      (catalog_ref_live db.type_moneys s.type_money = true ∧
       catalog_ref_live db.currencys s.currency = true ∧
       catalog_ref_live db.mints s.mint = true ∧
       catalog_ref_live db.issuing_states s.issuing_state = true)) ∧
    (∀ e, MoneyResolver.validate db s = Except.error e →
      ∃ ks, e = ApiError.missingObjectsError ks ∧ ks ≠ [] ∧
        (("type_money" ∈ ks) ↔ catalog_ref_live db.type_moneys s.type_money = false) ∧
        (("currency" ∈ ks) ↔ catalog_ref_live db.currencys s.currency = false) ∧
        (("mint" ∈ ks) ↔ catalog_ref_live db.mints s.mint = false) ∧
        (("issuing_state" ∈ ks) ↔ catalog_ref_live db.issuing_states s.issuing_state = false) ∧
        (∀ k ∈ ks, k = "type_money" ∨ k = "currency" ∨ k = "mint" ∨ k = "issuing_state")) := by
  have hkmem : ∀ k, k ∈ MoneyResolver.money_missing_keys db s ↔
      (k ∈ (["type_money", "currency", "mint", "issuing_state"] : List String) ∧
        k ∉ MoneyResolver.money_existing db s) := mem_money_missing_keys db s
  constructor
  · have hval_ok : MoneyResolver.validate db s = Except.ok () ↔
        MoneyResolver.money_missing_keys db s = [] := by
      unfold MoneyResolver.validate
      cases h : MoneyResolver.money_missing_keys db s <;> simp
    rw [hval_ok, money_missing_keys_nil_iff]
  · intro e he
    cases h : MoneyResolver.money_missing_keys db s with
    | nil =>
      unfold MoneyResolver.validate at he
      rw [h] at he
      cases he
    | cons k ks =>
      unfold MoneyResolver.validate at he
      rw [h] at he
      simp only [List.isEmpty_cons, if_false, Bool.false_eq_true] at he
      refine ⟨k :: ks, ?_, by simp, ?_, ?_, ?_, ?_, ?_⟩
      · cases he
        rfl
      · rw [← h]
        rw [hkmem, mem_money_existing]
        simp
      · rw [← h]
        rw [hkmem, mem_money_existing]
        simp
      · rw [← h]
        rw [hkmem, mem_money_existing]
        simp
      · rw [← h]
        rw [hkmem, mem_money_existing]
        simp
      · intro k' hk'
        rw [← h, hkmem] at hk'
        simpa using hk'.1

/-- C1 (divergence witness): the admin (account 1) approving transfer 10,
whose destination is account 3 and whose item's owner matches its source,
succeeds, stamps closedAt, sets status approved — but hands item 7 to the
caller, account 1, not to the destination: move_money assigns user.id. -/
theorem approve_reassigns_to_caller_not_destination :
    TransferResolver.approve exdb 10 rootAcct 99 =
      Except.ok (money7 1,
        { exdb with
          transfers := [{ transfer10 with closed_at := some 99, status := StatusTransfer.approved }]
          moneys := [money7 1] }) ∧
    transfer10.destination = 3 ∧ rootAcct.id = 1 ∧ (money7 1).user ≠ transfer10.destination := by
  refine ⟨by rfl, rfl, rfl, by decide⟩

theorem TransferResolver.validate_transfer_ok {db : DB} {s : CreateTransferScheme}
    {src dst : Account} {mny : Money}
    (h : TransferResolver.validate_transfer db s = Except.ok (src, dst, mny)) :
    sql.get_instance_by_id db.accounts s.source none = some src ∧
    sql.get_instance_by_id db.accounts s.destination none = some dst ∧
    sql.get_instance_by_id db.moneys s.money (some with_for_update) = some mny ∧
    mny.user = src.id ∧ src.id ≠ dst.id ∧
    sql.get_all_instance db.transfers
      (some (TransferResolver.get_filtration_by_source src mny)) = [] := by
  unfold TransferResolver.validate_transfer at h
  split at h
  next src' dst' mny' hs hd hm =>
    split at h
    next => cases h
    next howner =>
      split at h
      next hself => cases h
      next hself =>
        split at h
        next hdup =>
          cases h
          rw [List.isEmpty_iff] at hdup
          exact ⟨hs, hd, hm, not_ne_iff.mp howner, hself, hdup⟩
        next => cases h
  next => cases h

theorem TransferResolver.create_transfer_ok {db : DB} {s : CreateTransferScheme} {u : Account}
    {now nid : Nat} {t : Transfer} {db' : DB}
    (h : TransferResolver.create_transfer db s u now nid = Except.ok (t, db')) :
    ∃ src dst mny,
      TransferResolver.validate_transfer db s = Except.ok (src, dst, mny) ∧
      t = { id := nid, deleted_at := none, source := src.id, destination := dst.id,
            creater := u.id, created_at := now, closed_at := none, comment := s.comment,
            money := mny.id, status := StatusTransfer.initial } ∧
      db' = { db with transfers := db.transfers ++ [t] } := by
  unfold TransferResolver.create_transfer at h
  split at h
  next => cases h
  next src dst mny heq =>
    cases h
    exact ⟨src, dst, mny, heq, rfl, rfl⟩

theorem TransferResolver.approve_ok {db : DB} {oid : Nat} {u : Account} {now : Nat}
    {m : Money} {db' : DB}
    (h : TransferResolver.approve db oid u now = Except.ok (m, db')) :
    ∃ tr mny,
      CrudResolver.get_instance_by_id db.transfers oid
        (some (TransferResolver.get_filtration u)) = Except.ok tr ∧
      sql.get_instance_by_id db.moneys tr.money (some with_for_update) = some mny ∧
      mny.user = tr.source ∧
      m = { mny with user := u.id } ∧
      db' = { db with
        transfers := updateById db.transfers tr.id
          { tr with closed_at := some now, status := StatusTransfer.approved }
        moneys := updateById db.moneys mny.id { mny with user := u.id } } := by
  unfold TransferResolver.approve at h
  split at h
  next => cases h
  next tr heq =>
    split at h
    next mny hmny =>
      split at h
      next howner =>
        cases h
        exact ⟨tr, mny, heq, hmny, howner, rfl, rfl⟩
      next => cases h
    next => cases h

theorem TransferResolver.decline_ok {db : DB} {oid : Nat} {u : Account} {now : Nat}
    {db' : DB}
    (h : TransferResolver.decline db oid u now = Except.ok db') :
    ∃ tr,
      CrudResolver.get_instance_by_id db.transfers oid
        (some (TransferResolver.get_filtration u)) = Except.ok tr ∧
      db' = { db with
        transfers := updateById db.transfers tr.id
          { tr with closed_at := some now, status := StatusTransfer.declined } } := by
  unfold TransferResolver.decline at h
  split at h
  next => cases h
  next tr heq =>
    cases h
    exact ⟨tr, heq, rfl⟩

theorem fetched_transfer_facts {ts : List Transfer} {oid : Nat} {u : Account} {tr : Transfer}
    (h : CrudResolver.get_instance_by_id ts oid
      (some (TransferResolver.get_filtration u)) = Except.ok tr) :
    tr ∈ ts ∧ tr.deleted_at = none ∧ tr.status = StatusTransfer.initial ∧ tr.id = oid := by
  have hall := sql.get_instance_by_id_some (CrudResolver.get_instance_by_id_ok_iff.mp h)
  have hf := hall.2.2.1
  simp [TransferResolver.get_filtration] at hf
  refine ⟨hall.1, hall.2.1, hf.1, ?_⟩
  have := hall.2.2.2
  simpa using this

theorem atMostOne_map_preserve {ts : List Transfer} {f : Transfer → Transfer}
    (hf : ∀ r, f r = r ∨ ¬ isActive (f r)) (h : AtMostOneActive ts) :
    AtMostOneActive (ts.map f) := by
  unfold AtMostOneActive at h ⊢
  induction ts with
  | nil => simp
  | cons x xs ih =>
    rw [List.pairwise_cons] at h
    obtain ⟨hx, hxs⟩ := h
    rw [List.map_cons, List.pairwise_cons]
    refine ⟨?_, ih hxs⟩
    intro b hb
    rw [List.mem_map] at hb
    obtain ⟨b0, hb0, rfl⟩ := hb
    rcases hf x with hfx | hfx
    · rcases hf b0 with hfb | hfb
      · rw [hfx, hfb]
        exact hx b0 hb0
      · intro _ hact _ _
        exact hfb hact
    · intro hact _ _ _
      exact hfx hact

theorem updateById_preserves_atMostOne {ts : List Transfer} {tid : Nat} {t' : Transfer}
    (ht' : ¬ isActive t') (h : AtMostOneActive ts) :
    AtMostOneActive (updateById ts tid t') := by
  refine atMostOne_map_preserve (fun r => ?_) h
  by_cases hc : Row.rid r = tid
  · right
    rw [if_pos hc]
    exact ht'
  · left
    rw [if_neg hc]

theorem atMostOne_append_new {ts : List Transfer} {t : Transfer}
    (h : AtMostOneActive ts)
    (hnew : ∀ a ∈ ts, isActive a → a.source = t.source → a.money = t.money → False) :
    AtMostOneActive (ts ++ [t]) := by
  unfold AtMostOneActive
  rw [List.pairwise_append]
  refine ⟨h, List.pairwise_singleton _ _, ?_⟩
  intro a ha b hb
  simp only [List.mem_singleton] at hb
  subst hb
  intro hact hbact hsrc hm
  exact hnew a ha hact hsrc hm

theorem step_preserves_atMostOne {db db' : DB} (hstep : Step db db')
    (h : AtMostOneActive db.transfers) : AtMostOneActive db'.transfers := by
  cases hstep with
  | createTransfer s u now nid t db' hc =>
    obtain ⟨src, dst, mny, hval, ht, hdb'⟩ := TransferResolver.create_transfer_ok hc
    obtain ⟨_, _, _, _, _, hdup⟩ := TransferResolver.validate_transfer_ok hval
    subst hdb'
    apply atMostOne_append_new h
    intro a ha hact hsrc hm
    have hmem : a ∈ sql.get_all_instance db.transfers
        (some (TransferResolver.get_filtration_by_source src mny)) := by
      rw [sql.mem_get_all_instance]
      refine ⟨ha, hact.1, ?_⟩
      subst ht
      simp only [TransferResolver.get_filtration_by_source, Bool.and_eq_true, decide_eq_true_eq]
      simp only at hsrc hm
      exact ⟨⟨hsrc, hm⟩, hact.2⟩
    rw [hdup] at hmem
    cases hmem
  | approveTransfer oid u now m db' happr =>
    obtain ⟨tr, mny, hfetch, hmny, howner, hm, hdb'⟩ := TransferResolver.approve_ok happr
    subst hdb'
    apply updateById_preserves_atMostOne ?_ h
    rintro ⟨_, hst⟩
    cases hst
  | declineTransfer oid u now db' hdec =>
    obtain ⟨tr, hfetch, hdb'⟩ := TransferResolver.decline_ok hdec
    subst hdb'
    apply updateById_preserves_atMostOne ?_ h
    rintro ⟨_, hst⟩
    cases hst
  | deleteTransfer oid u now ts hdel =>
    obtain ⟨obj, hfetch, hrows⟩ := CrudResolver.delete_by_id_ok hdel
    subst hrows
    apply updateById_preserves_atMostOne ?_ h
    rintro ⟨hdel, _⟩
    rw [← deletedAt_transfer, Row.deletedAt_setDeletedAt] at hdel
    cases hdel
  | frame db' hf =>
    rw [hf]
    exact h

/-- C2: every reachable state keeps at most one active (live, status
initial) transfer per (source, item) pair, and a creation request that
passes the earlier checks but finds an existing active transfer for the
resolved (source, item) pair fails with UniqueError, inserting nothing. -/
theorem active_transfer_uniqueness (db : DB) (hreach : Reach db) :
    AtMostOneActive db.transfers ∧
    (∀ (s : CreateTransferScheme) (u : Account) (now nid : Nat)
        (src dst : Account) (mny : Money),
      sql.get_instance_by_id db.accounts s.source none = some src →
      sql.get_instance_by_id db.accounts s.destination none = some dst →
      sql.get_instance_by_id db.moneys s.money (some with_for_update) = some mny →
      mny.user = src.id → src.id ≠ dst.id →
      (∃ t ∈ db.transfers, isActive t ∧ t.source = src.id ∧ t.money = mny.id) →
      TransferResolver.create_transfer db s u now nid = Except.error ApiError.uniqueError) := by
  constructor
  · induction hreach with
    | init db h =>
      rw [h]
      exact List.Pairwise.nil
    | step db db' h1 h2 ih => exact step_preserves_atMostOne h2 ih
  · intro s u now nid src dst mny hs hd hm howner hneq hex
    have hdup_ne : ¬ (sql.get_all_instance db.transfers
        (some (TransferResolver.get_filtration_by_source src mny))).isEmpty = true := by
      obtain ⟨t, ht, hact, hsrc, hmny⟩ := hex
      have hmem : t ∈ sql.get_all_instance db.transfers
          (some (TransferResolver.get_filtration_by_source src mny)) := by
        rw [sql.mem_get_all_instance]
        exact ⟨ht, hact.1, by
          simp only [TransferResolver.get_filtration_by_source, Bool.and_eq_true,
            decide_eq_true_eq]
          exact ⟨⟨hsrc, hmny⟩, hact.2⟩⟩
      intro hempty
      rw [List.isEmpty_iff] at hempty
      rw [hempty] at hmem
      cases hmem
    unfold TransferResolver.create_transfer TransferResolver.validate_transfer
    rw [hs, hd, hm]
    dsimp only
    rw [if_neg (not_not.mpr howner), if_neg hneq, if_neg hdup_ne]

/-- Witness for C2: the example database is reachable (empty table, then
one creation), and the invariant with the Unique-failure property holds
there. -/
theorem active_transfer_uniqueness_witness :
    Reach exdb ∧
    (AtMostOneActive exdb.transfers ∧
    (∀ (s : CreateTransferScheme) (u : Account) (now nid : Nat)
        (src dst : Account) (mny : Money),
      sql.get_instance_by_id exdb.accounts s.source none = some src →
      sql.get_instance_by_id exdb.accounts s.destination none = some dst →
      sql.get_instance_by_id exdb.moneys s.money (some with_for_update) = some mny →
      mny.user = src.id → src.id ≠ dst.id →
      (∃ t ∈ exdb.transfers, isActive t ∧ t.source = src.id ∧ t.money = mny.id) →
      TransferResolver.create_transfer exdb s u now nid =
        Except.error ApiError.uniqueError)) := by
  have hr : Reach exdb :=
    Reach.step { exdb with transfers := [] } exdb
      (Reach.init { exdb with transfers := [] } rfl)
      (Step.createTransfer { exdb with transfers := [] }
        { source := 2, destination := 3, comment := "c", money := 7 }
        rootAcct 0 10 transfer10 exdb (by rfl))
  exact ⟨hr, active_transfer_uniqueness exdb hr⟩

theorem transfer_eq_of_id_eq {ts : List Transfer}
    (hnodup : (ts.map Transfer.id).Nodup) {a b : Transfer}
    (ha : a ∈ ts) (hb : b ∈ ts) (hid : a.id = b.id) : a = b :=
  List.inj_on_of_nodup_map hnodup ha hb hid

theorem mem_updateById_of_ne {α : Type} [Row α] {ts : List α} {tid : Nat} {t' t : α}
    (ht : t ∈ ts) (hne : Row.rid t ≠ tid) : t ∈ updateById ts tid t' := by
  rw [updateById, List.mem_map]
  refine ⟨t, ht, ?_⟩
  rw [if_neg hne]

/-- C5: approved and declined are terminal.  In a table with distinct
primary keys, a closed (non-initial) transfer is invisible to the approve
and decline fetch, so both fail with UndefinedError (NotFound), and every
engine step leaves the closed row in the table unchanged. -/
theorem closed_transfers_terminal (db : DB)
    (hnodup : (db.transfers.map Transfer.id).Nodup)
    (t : Transfer) (ht : t ∈ db.transfers) (hclosed : t.status ≠ StatusTransfer.initial) :
    (∀ (u : Account) (now : Nat),
      TransferResolver.approve db t.id u now = Except.error ApiError.undefinedError ∧
      TransferResolver.decline db t.id u now = Except.error ApiError.undefinedError) ∧
    (∀ db', Step db db' → t ∈ db'.transfers) := by
  have hfetch : ∀ u : Account,
      CrudResolver.get_instance_by_id db.transfers t.id
        (some (TransferResolver.get_filtration u)) = Except.error ApiError.undefinedError := by
    intro u
    rw [CrudResolver.get_instance_by_id_err_iff]
    apply sql.get_instance_by_id_eq_none
    intro a hamem hadel haf
    simp only [TransferResolver.get_filtration, Bool.and_eq_true, decide_eq_true_eq] at haf
    simp only [rid_transfer]
    intro hid
    have : a = t := transfer_eq_of_id_eq hnodup hamem ht hid
    rw [this] at haf
    exact hclosed haf.1
  constructor
  · intro u now
    constructor
    · unfold TransferResolver.approve
      rw [hfetch u]
    · unfold TransferResolver.decline
      rw [hfetch u]
  · intro db' hstep
    cases hstep with
    | createTransfer s u now nid t' db' hc =>
      obtain ⟨src, dst, mny, hval, ht', hdb'⟩ := TransferResolver.create_transfer_ok hc
      subst hdb'
      exact List.mem_append_left _ ht
    | approveTransfer oid u now m db' happr =>
      obtain ⟨tr, mny, hfetch2, hmny, howner, hm, hdb'⟩ := TransferResolver.approve_ok happr
      subst hdb'
      obtain ⟨htr, _, hinit, _⟩ := fetched_transfer_facts hfetch2
      apply mem_updateById_of_ne ht
      simp only [rid_transfer]
      intro hid
      rw [transfer_eq_of_id_eq hnodup ht htr hid] at hclosed
      exact hclosed hinit
    | declineTransfer oid u now db' hdec =>
      obtain ⟨tr, hfetch2, hdb'⟩ := TransferResolver.decline_ok hdec
      subst hdb'
      obtain ⟨htr, _, hinit, _⟩ := fetched_transfer_facts hfetch2
      apply mem_updateById_of_ne ht
      simp only [rid_transfer]
      intro hid
      rw [transfer_eq_of_id_eq hnodup ht htr hid] at hclosed
      exact hclosed hinit
    | deleteTransfer oid u now ts hdel =>
      obtain ⟨obj, hfetch2, hrows⟩ := CrudResolver.delete_by_id_ok hdel
      subst hrows
      obtain ⟨hobj, _, hinit, _⟩ :=
        fetched_transfer_facts (CrudResolver.get_instance_by_id_ok_iff.mpr hfetch2)
      apply mem_updateById_of_ne ht
      simp only [rid_transfer]
      intro hid
      rw [transfer_eq_of_id_eq hnodup ht hobj hid] at hclosed
      exact hclosed hinit
    | frame db' hf =>
      rw [hf]
      exact ht

/-- Witness for C5 at the closed transfer 11 in the two-transfer example
database. -/
theorem closed_transfers_terminal_witness :
    (c5db.transfers.map Transfer.id).Nodup ∧
    closedTransfer ∈ c5db.transfers ∧
    closedTransfer.status ≠ StatusTransfer.initial ∧
    ((∀ (u : Account) (now : Nat),
      TransferResolver.approve c5db closedTransfer.id u now =
        Except.error ApiError.undefinedError ∧
      TransferResolver.decline c5db closedTransfer.id u now =
        Except.error ApiError.undefinedError) ∧
    (∀ db', Step c5db db' → closedTransfer ∈ db'.transfers)) :=
  ⟨by decide, by decide, by decide,
    closed_transfers_terminal c5db (by decide) closedTransfer (by decide) (by decide)⟩
